import Mathlib

/-!
Verification development for the page-cache residency probe of
`pkg/pcstats/pcstatus.go` (pgcacher).

The Go pipeline `GetPcStatus` performs a linear sequence of operating-system
interactions: open the target, run the caller-supplied filter on the handle,
stat the handle, reject directories, detect block devices (a second stat by
path inside `_isBlockDevice`), resolve the byte size (for block devices via a
`BLKGETSIZE64` ioctl performed by `getBlockDeviceSize`, which opens its own
handle to the path), capture timestamps, invoke the residency provider
`GetFileMincore`, and aggregate the counts into a `PcStatus` record.

Shallow embedding choices:
* Every operating-system interaction is an oracle recorded in an `Env` value;
  the pipeline is a pure function of the environment and the path.
* The run also produces a trace of `Event`s, one per OS interaction, in the
  order the Go code performs them; `defer`red closes appear at the position
  Go runs them (function exit, LIFO).  Handles are numbered in order of
  opening: the pipeline's own handle is `0`, the handle opened inside
  `getBlockDeviceSize` is `1`.
* Go `int`/`int64` arithmetic is modelled on `Int` with an explicit
  two's-complement reduction `wrap64` at each conversion and addition
  (64-bit platform, where Go's `int` is 64 bits wide).
* `float64` values (the `Percent` field) are modelled as exact rationals;
  the spec itself only demands the percentage formula up to floating-point
  tolerance.
* `time.Time` instants are modelled as integers, with `0` as the zero value.
-/

/-- Errors as produced and propagated by the Go code.  `base` stands for an
underlying OS error or caller-defined error value; `wrapOpen` and `wrapStat`
are the `fmt.Errorf` wrappings at the open and stat stages; `isDirectory` is
`errors.New("file is a directory")`; `errno` is a raw syscall errno returned
by `getBlockDeviceSize` when the ioctl fails. -/
inductive GoErr where
  | base (code : Nat)
  | wrapOpen (e : GoErr)
  | wrapStat (e : GoErr)
  | isDirectory
  | errno (n : Nat)
deriving DecidableEq, Repr

/-- Result of `f.Stat()` on the open handle: directory bit, size in bytes,
and modification time. -/
structure FileInfo where
  isDir : Bool
  size : Int
  modTime : Int
deriving DecidableEq, Repr

/-- Mode bits of `os.Stat(path)` as inspected by `_isBlockDevice`:
`os.ModeDevice` and `os.ModeCharDevice`. -/
structure PathInfo where
  isDevice : Bool
  isCharDevice : Bool
deriving DecidableEq, Repr

/-- Modelled from the spec: the residency report of the Page Residency
Provider (`GetFileMincore` lives in `pkg/pcstats/mincore.go`, which is not
among the given sources).  Spec §4.3/§6: the provider yields a report of
counts `{Cached: c, Miss: m}` such that `c + m` is the number of fixed-size
pages covering the probed byte length. -/
structure Mincore where
  Cached : Int
  Miss : Int
deriving DecidableEq, Repr

/-- The status record built by `GetPcStatus` (struct `PcStatus` in the Go
source).  `Percent` is Go `float64`, modelled as an exact rational. -/
structure PcStatus where
  Name : String
  Size : Int
  Timestamp : Int
  Mtime : Int
  Pages : Int
  Cached : Int
  Uncached : Int
  Percent : ℚ
deriving DecidableEq, Repr

/-- The freshly initialised record `PcStatus{Name: fname}`: every other field
at its Go zero value. -/
def zeroRec (fname : String) : PcStatus :=
  { Name := fname, Size := 0, Timestamp := 0, Mtime := 0,
    Pages := 0, Cached := 0, Uncached := 0, Percent := 0 }

/-- Oracle environment: the outcome of each operating-system interaction the
pipeline may perform, fixed up front.  `none` in an `Option GoErr` field
means the call succeeds. -/
structure Env where
  /-- outcome of `os.Open(fname)` at pipeline start -/
  openErr : Option GoErr
  /-- outcome of the caller-supplied `filter(f)` -/
  filterErr : Option GoErr
  /-- outcome of `f.Stat()` -/
  statRes : Except GoErr FileInfo
  /-- outcome of `os.Stat(path)` inside `_isBlockDevice` -/
  statPathRes : Except GoErr PathInfo
  /-- outcome of `os.Open(path)` inside `getBlockDeviceSize` -/
  open2Err : Option GoErr
  /-- errno of the `BLKGETSIZE64` ioctl (`0` means success) -/
  ioctlErrno : Nat
  /-- size written by the ioctl when it succeeds -/
  ioctlSize : Int
  /-- value of `time.Now()` -/
  now : Int
  /-- outcome of the residency provider for a nonzero byte length -/
  mincoreRes : Except GoErr (Option Mincore)
deriving Repr

/-- Trace of operating-system interactions, in execution order.  Handles are
numbered in order of opening. -/
inductive Event where
  | openF (path : String) (h : Nat)
  | openFail (path : String)
  | closeF (h : Nat)
  | filterCall (h : Nat)
  | statF (h : Nat)
  | statPath (path : String)
  | ioctl (h : Nat) (req : Nat)
  | mincoreCall (h : Nat) (size : Int)
  | percentDiv (pages : Int)
deriving DecidableEq, Repr

/-- The ioctl request constant `BLKGETSIZE64` from the Go source. -/
def BLKGETSIZE64 : Nat := 0x80081272

/-- Two's-complement reduction into the 64-bit signed range, modelling Go's
`int`/`int64` arithmetic on a 64-bit platform. -/
def wrap64 (x : Int) : Int := (x + 2 ^ 63) % 2 ^ 64 - 2 ^ 63

/-- Embedding of `_isBlockDevice(path)`: stat the path and test
`mode&os.ModeDevice != 0 && mode&os.ModeCharDevice == 0`.  It performs one
`os.Stat` by path, recorded as a `statPath` event by the caller. -/
def _isBlockDevice (env : Env) : Except GoErr Bool :=
  match env.statPathRes with
  | .error e => .error e
  | .ok info => .ok (info.isDevice && !info.isCharDevice)

/-- Embedding of `getBlockDeviceSize(path)`: open the path (a fresh handle),
issue the `BLKGETSIZE64` ioctl on that handle, and close it (deferred) before
returning.  On a nonzero errno the function returns the errno as its error
and size `0`. -/
def getBlockDeviceSize (env : Env) : Except GoErr Int :=
  match env.open2Err with
  | some e => .error e
  | none => if env.ioctlErrno ≠ 0 then .error (.errno env.ioctlErrno) else .ok env.ioctlSize

/-- Events performed by `getBlockDeviceSize(path)` when its fresh handle is
numbered `h`: the open (or its failure), the ioctl on the fresh handle, and
the deferred close of that handle. -/
def getBlockDeviceSizeEvents (env : Env) (path : String) (h : Nat) : List Event :=
  match env.open2Err with
  | some _ => [.openFail path]
  | none => [.openF path h, .ioctl h BLKGETSIZE64, .closeF h]

/-- Modelled from the spec: `GetFileMincore(f, size)` is defined in
`pkg/pcstats/mincore.go`, which is not among the given sources.  Spec §4.3:
the provider may fail, and must treat a zero byte length as "nothing to
probe", yielding an absent report and no error rather than a residency
report; for a nonzero length its outcome is the environment's oracle. -/
def GetFileMincore (env : Env) (size : Int) : Except GoErr (Option Mincore) :=
  if size = 0 then .ok none else env.mincoreRes

/-- Embedding of `GetPcStatus(fname, filter)`.  Returns the record and error
exactly as the Go function does, paired with the trace of OS interactions.
The pipeline's own handle is `0`; the handle opened inside
`getBlockDeviceSize` is `1`.  The deferred `f.Close()` appears as the last
event of every path that opened the file. -/
def GetPcStatus (env : Env) (fname : String) : (PcStatus × Option GoErr) × List Event :=
  let pcs := zeroRec fname
  match env.openErr with
  | some e => ((pcs, some (.wrapOpen e)), [.openFail fname])
  | none =>
  match env.filterErr with
  | some e => ((pcs, some e), [.openF fname 0, .filterCall 0, .closeF 0])
  | none =>
  match env.statRes with
  | .error e => ((pcs, some (.wrapStat e)), [.openF fname 0, .filterCall 0, .statF 0, .closeF 0])
  | .ok finfo =>
  if finfo.isDir then
    ((pcs, some .isDirectory), [.openF fname 0, .filterCall 0, .statF 0, .closeF 0])
  else
  match _isBlockDevice env with
  | .error e =>
      ((pcs, some e), [.openF fname 0, .filterCall 0, .statF 0, .statPath fname, .closeF 0])
  | .ok isBlock =>
  let sizeEvs : List Event := if isBlock then getBlockDeviceSizeEvents env fname 1 else []
  let pre : List Event :=
    [.openF fname 0, .filterCall 0, .statF 0, .statPath fname] ++ sizeEvs
  match (if isBlock then getBlockDeviceSize env else .ok finfo.size : Except GoErr Int) with
  | .error e => ((pcs, some e), pre ++ [.closeF 0])
  | .ok sz =>
  let pcs1 := { pcs with Size := sz, Timestamp := env.now, Mtime := finfo.modTime }
  match GetFileMincore env sz with
  | .error e => ((pcs1, some e), pre ++ [.mincoreCall 0 sz, .closeF 0])
  | .ok none => ((pcs1, none), pre ++ [.mincoreCall 0 sz, .closeF 0])
  | .ok (some mc) =>
    let cached := wrap64 mc.Cached
    let pages := wrap64 (cached + wrap64 mc.Miss)
    let uncached := wrap64 mc.Miss
    let pcs2 := { pcs1 with
                  Cached := cached
                  Pages := pages
                  Uncached := uncached
                  Percent := ((cached : ℚ) / (pages : ℚ)) * 100 }
    ((pcs2, none), pre ++ [.mincoreCall 0 sz, .percentDiv pages, .closeF 0])

/-! Trace observations used to state resource and ordering properties. -/

/-- Number of successful opens recorded in a trace. -/
def countOpens : List Event → Nat
  | [] => 0
  | .openF _ _ :: r => countOpens r + 1
  | _ :: r => countOpens r

/-- Whether a trace contains a close of handle `h`. -/
def containsClose (h : Nat) : List Event → Bool
  | [] => false
  | .closeF h' :: r => h' == h || containsClose h r
  | _ :: r => containsClose h r

/-- Every successful open in the trace is followed, later in the trace, by a
close of the same handle. -/
def allOpensClosed : List Event → Bool
  | [] => true
  | .openF _ h :: r => containsClose h r && allOpensClosed r
  | _ :: r => allOpensClosed r

/-- Whether a trace contains an ioctl issued on handle `h`. -/
def hasIoctlOn (h : Nat) : List Event → Bool
  | [] => false
  | .ioctl h' _ :: r => h' == h || hasIoctlOn h r
  | _ :: r => hasIoctlOn h r

/-- Whether a trace contains any ioctl (device-size query). -/
def hasIoctl : List Event → Bool
  | [] => false
  | .ioctl _ _ :: _ => true
  | _ :: r => hasIoctl r

/-- Whether a trace contains a residency-provider invocation. -/
def hasMincoreCall : List Event → Bool
  | [] => false
  | .mincoreCall _ _ :: _ => true
  | _ :: r => hasMincoreCall r

/-- Whether a trace contains the path stat of block-device detection. -/
def hasStatPath : List Event → Bool
  | [] => false
  | .statPath _ :: _ => true
  | _ :: r => hasStatPath r

/-- Whether a trace contains a stat of an open handle. -/
def hasStatF : List Event → Bool
  | [] => false
  | .statF _ :: _ => true
  | _ :: r => hasStatF r

/-- Whether a trace records the percentage division being executed. -/
def hasPercentDiv : List Event → Bool
  | [] => false
  | .percentDiv _ :: _ => true
  | _ :: r => hasPercentDiv r

/-- `wrap64` is the identity on the 64-bit signed range. -/
theorem wrap64_eq_self (x : Int) (h1 : -(2 ^ 63) ≤ x) (h2 : x < 2 ^ 63) :
    wrap64 x = x := by
  unfold wrap64
  rw [Int.emod_eq_of_lt (by omega) (by omega)]
  omega

/-! Concrete environments used as witnesses. -/

/-- An environment in which every stage succeeds: a regular 8192-byte file,
two pages, one cached and one missed. -/
def goodEnv : Env :=
  { openErr := none, filterErr := none,
    statRes := .ok { isDir := false, size := 8192, modTime := 5 },
    statPathRes := .ok { isDevice := false, isCharDevice := false },
    open2Err := none, ioctlErrno := 0, ioctlSize := 0, now := 7,
    mincoreRes := .ok (some { Cached := 1, Miss := 1 }) }

/-- A block-device environment: generic stat size 0, device-size query
reporting 1048576 bytes, every stage succeeding. -/
def blkEnv : Env :=
  { goodEnv with
    statRes := .ok { isDir := false, size := 0, modTime := 5 }
    statPathRes := .ok { isDevice := true, isCharDevice := false }
    ioctlSize := 1048576
    mincoreRes := .ok (some { Cached := 2, Miss := 0 }) }

/-- C4: when the filter returns an error on the opened handle, `GetPcStatus`
returns the record with only `Name` set together with the filter's own error,
and neither the handle stat, nor block-device detection, nor the device-size
query, nor the residency provider is ever invoked. -/
theorem filter_error_short_circuits (env : Env) (fname : String) (e : GoErr)
    (ho : env.openErr = none) (hf : env.filterErr = some e) :
    (GetPcStatus env fname).1 = (zeroRec fname, some e) ∧
    hasStatF (GetPcStatus env fname).2 = false ∧
    hasStatPath (GetPcStatus env fname).2 = false ∧
    hasIoctl (GetPcStatus env fname).2 = false ∧
    hasMincoreCall (GetPcStatus env fname).2 = false := by
  simp [GetPcStatus, ho, hf, hasStatF, hasStatPath, hasIoctl, hasMincoreCall]

/-- Witness for C4: a concrete environment whose filter fails with error
code 42 short-circuits as the theorem states. -/
theorem filter_error_short_circuits_witness :
    (GetPcStatus { goodEnv with filterErr := some (.base 42) } "f").1 =
      (zeroRec "f", some (.base 42)) ∧
    hasStatF (GetPcStatus { goodEnv with filterErr := some (.base 42) } "f").2 = false ∧
    hasStatPath (GetPcStatus { goodEnv with filterErr := some (.base 42) } "f").2 = false ∧
    hasIoctl (GetPcStatus { goodEnv with filterErr := some (.base 42) } "f").2 = false ∧
    hasMincoreCall (GetPcStatus { goodEnv with filterErr := some (.base 42) } "f").2 = false :=
  filter_error_short_circuits _ "f" (.base 42) rfl rfl

/-- C7: a target that stats as a directory (after open and filter succeed)
always yields the directory error and a record populated no further than
`Name`: all other fields stay at their zero values. -/
theorem directory_never_populated (env : Env) (fname : String) (finfo : FileInfo)
    (ho : env.openErr = none) (hf : env.filterErr = none)
    (hs : env.statRes = .ok finfo) (hd : finfo.isDir = true) :
    (GetPcStatus env fname).1 = (zeroRec fname, some .isDirectory) := by
  simp [GetPcStatus, ho, hf, hs, hd]

/-- Witness for C7: a concrete directory target yields the directory error
and the `Name`-only record. -/
theorem directory_never_populated_witness :
    (GetPcStatus { goodEnv with statRes := .ok { isDir := true, size := 4096, modTime := 5 } } "d").1 =
      (zeroRec "d", some .isDirectory) :=
  directory_never_populated _ "d" { isDir := true, size := 4096, modTime := 5 } rfl rfl rfl rfl

/-- C10: the directory check runs before block-device detection, size
resolution, timestamp capture and the residency probe: on a directory target
the trace holds no path stat, no device-size query and no provider call, and
the returned record's timestamp was never captured. -/
theorem directory_check_runs_first (env : Env) (fname : String) (finfo : FileInfo)
    (ho : env.openErr = none) (hf : env.filterErr = none)
    (hs : env.statRes = .ok finfo) (hd : finfo.isDir = true) :
    hasStatPath (GetPcStatus env fname).2 = false ∧
    hasIoctl (GetPcStatus env fname).2 = false ∧
    hasMincoreCall (GetPcStatus env fname).2 = false ∧
    (GetPcStatus env fname).1.1.Timestamp = 0 := by
  simp [GetPcStatus, ho, hf, hs, hd, hasStatPath, hasIoctl, hasMincoreCall, zeroRec]

/-- Witness for C10: on a concrete directory target no device-size query and
no provider call appear in the trace. -/
theorem directory_check_runs_first_witness :
    hasStatPath (GetPcStatus { goodEnv with statRes := .ok { isDir := true, size := 4096, modTime := 5 } } "d").2 = false ∧
    hasIoctl (GetPcStatus { goodEnv with statRes := .ok { isDir := true, size := 4096, modTime := 5 } } "d").2 = false ∧
    hasMincoreCall (GetPcStatus { goodEnv with statRes := .ok { isDir := true, size := 4096, modTime := 5 } } "d").2 = false ∧
    (GetPcStatus { goodEnv with statRes := .ok { isDir := true, size := 4096, modTime := 5 } } "d").1.1.Timestamp = 0 :=
  directory_check_runs_first _ "d" { isDir := true, size := 4096, modTime := 5 } rfl rfl rfl rfl

/-- C5: for a block device (device-mode entry that is not a character
device) the record's `Size` comes from the device-size query, and for a
non-block-device target it is the stat-reported size. -/
theorem size_resolution_branches (env : Env) (fname : String)
    (finfo : FileInfo) (pinfo : PathInfo)
    (ho : env.openErr = none) (hf : env.filterErr = none)
    (hs : env.statRes = .ok finfo) (hd : finfo.isDir = false)
    (hp : env.statPathRes = .ok pinfo) :
    ((pinfo.isDevice && !pinfo.isCharDevice) = true → env.open2Err = none →
      env.ioctlErrno = 0 → (GetPcStatus env fname).1.1.Size = env.ioctlSize) ∧
    ((pinfo.isDevice && !pinfo.isCharDevice) = false →
      (GetPcStatus env fname).1.1.Size = finfo.size) := by
  constructor
  · intro hb h2 hn
    rcases hmr : env.mincoreRes with e | (_ | mc) <;>
    by_cases hz : env.ioctlSize = 0 <;>
      simp [GetPcStatus, _isBlockDevice, getBlockDeviceSize, getBlockDeviceSizeEvents,
        GetFileMincore, ho, hf, hs, hd, hp, hb, h2, hn, hmr, hz, zeroRec]
  · intro hb
    rcases hmr : env.mincoreRes with e | (_ | mc) <;>
    by_cases hz : finfo.size = 0 <;>
      simp [GetPcStatus, _isBlockDevice, GetFileMincore, ho, hf, hs, hd, hp, hb, hmr, hz,
        zeroRec]

/-- Witness for C5: a block device with generic stat size 0 and device-size
query 1048576 yields `Size = 1048576`, and the same environment demoted to a
regular file yields the stat size 0. -/
theorem size_resolution_branches_witness :
    (({ isDevice := true, isCharDevice := false : PathInfo }.isDevice &&
        !{ isDevice := true, isCharDevice := false : PathInfo }.isCharDevice) = true →
      blkEnv.open2Err = none → blkEnv.ioctlErrno = 0 →
      (GetPcStatus blkEnv "dev").1.1.Size = blkEnv.ioctlSize) ∧
    (({ isDevice := true, isCharDevice := false : PathInfo }.isDevice &&
        !{ isDevice := true, isCharDevice := false : PathInfo }.isCharDevice) = false →
      (GetPcStatus blkEnv "dev").1.1.Size = { isDir := false, size := 0, modTime := 5 : FileInfo }.size) :=
  size_resolution_branches blkEnv "dev"
    { isDir := false, size := 0, modTime := 5 }
    { isDevice := true, isCharDevice := false }
    rfl rfl rfl rfl rfl

/-- C9: when the residency provider reports an absent result with no error,
`GetPcStatus` succeeds and the record keeps the page fields at zero while
`Name`, `Size`, `Timestamp` and `Mtime` hold their already-resolved values. -/
theorem nil_report_is_success (env : Env) (fname : String)
    (finfo : FileInfo) (pinfo : PathInfo)
    (ho : env.openErr = none) (hf : env.filterErr = none)
    (hs : env.statRes = .ok finfo) (hd : finfo.isDir = false)
    (hp : env.statPathRes = .ok pinfo)
    (hb2 : if (pinfo.isDevice && !pinfo.isCharDevice) = true
           then env.open2Err = none ∧ env.ioctlErrno = 0 else True)
    (hm : env.mincoreRes = .ok none) :
    (GetPcStatus env fname).1.2 = none ∧
    (GetPcStatus env fname).1.1 =
      { Name := fname,
        Size := if (pinfo.isDevice && !pinfo.isCharDevice) = true
                then env.ioctlSize else finfo.size,
        Timestamp := env.now, Mtime := finfo.modTime,
        Pages := 0, Cached := 0, Uncached := 0, Percent := 0 } := by
  cases hb : pinfo.isDevice && !pinfo.isCharDevice
  · simp only [hb] at hb2 ⊢
    simp [GetPcStatus, _isBlockDevice, GetFileMincore, ho, hf, hs, hd, hp, hb, hm, zeroRec]
  · rw [hb] at hb2
    simp only [if_pos rfl] at hb2
    simp [GetPcStatus, _isBlockDevice, getBlockDeviceSize, getBlockDeviceSizeEvents,
      GetFileMincore, ho, hf, hs, hd, hp, hb, hb2.1, hb2.2, hm, zeroRec]

/-- Witness for C9: a concrete nil-report probe of a regular 8192-byte file
succeeds with the page fields at zero. -/
theorem nil_report_is_success_witness :
    (GetPcStatus { goodEnv with mincoreRes := .ok none } "f").1.2 = none ∧
    (GetPcStatus { goodEnv with mincoreRes := .ok none } "f").1.1 =
      { Name := "f",
        Size := if (({ isDevice := false, isCharDevice := false : PathInfo }).isDevice &&
                    !({ isDevice := false, isCharDevice := false : PathInfo }).isCharDevice) = true
                then ({ goodEnv with mincoreRes := .ok none } : Env).ioctlSize
                else ({ isDir := false, size := 8192, modTime := 5 : FileInfo }).size,
        Timestamp := ({ goodEnv with mincoreRes := .ok none } : Env).now,
        Mtime := ({ isDir := false, size := 8192, modTime := 5 : FileInfo }).modTime,
        Pages := 0, Cached := 0, Uncached := 0, Percent := 0 } :=
  nil_report_is_success _ "f"
    { isDir := false, size := 8192, modTime := 5 }
    { isDevice := false, isCharDevice := false }
    rfl rfl rfl rfl rfl (by simp) rfl

/-- C3: a target whose resolved size is zero probes successfully with
`Cached`, `Uncached`, `Pages` and `Percent` all zero, and the percentage
division is never executed. -/
theorem empty_target_zero_fields (env : Env) (fname : String)
    (finfo : FileInfo) (pinfo : PathInfo)
    (ho : env.openErr = none) (hf : env.filterErr = none)
    (hs : env.statRes = .ok finfo) (hd : finfo.isDir = false)
    (hp : env.statPathRes = .ok pinfo)
    (hszB : (pinfo.isDevice && !pinfo.isCharDevice) = true →
            env.open2Err = none ∧ env.ioctlErrno = 0 ∧ env.ioctlSize = 0)
    (hszR : (pinfo.isDevice && !pinfo.isCharDevice) = false → finfo.size = 0) :
    (GetPcStatus env fname).1.2 = none ∧
    (GetPcStatus env fname).1.1.Cached = 0 ∧
    (GetPcStatus env fname).1.1.Uncached = 0 ∧
    (GetPcStatus env fname).1.1.Percent = 0 ∧
    (GetPcStatus env fname).1.1.Pages = 0 ∧
    hasPercentDiv (GetPcStatus env fname).2 = false := by
  cases hb : pinfo.isDevice && !pinfo.isCharDevice
  · simp [GetPcStatus, _isBlockDevice, GetFileMincore, ho, hf, hs, hd, hp, hb, hszR hb,
      zeroRec, hasPercentDiv]
  · obtain ⟨h2, hn, hz⟩ := hszB hb
    simp [GetPcStatus, _isBlockDevice, getBlockDeviceSize, getBlockDeviceSizeEvents,
      GetFileMincore, ho, hf, hs, hd, hp, hb, h2, hn, hz, zeroRec, hasPercentDiv]

/-- Witness for C3: probing a concrete empty regular file succeeds with all
page fields and the percentage at zero and no percentage division. -/
theorem empty_target_zero_fields_witness :
    (GetPcStatus { goodEnv with statRes := .ok { isDir := false, size := 0, modTime := 5 } } "e").1.2 = none ∧
    (GetPcStatus { goodEnv with statRes := .ok { isDir := false, size := 0, modTime := 5 } } "e").1.1.Cached = 0 ∧
    (GetPcStatus { goodEnv with statRes := .ok { isDir := false, size := 0, modTime := 5 } } "e").1.1.Uncached = 0 ∧
    (GetPcStatus { goodEnv with statRes := .ok { isDir := false, size := 0, modTime := 5 } } "e").1.1.Percent = 0 ∧
    (GetPcStatus { goodEnv with statRes := .ok { isDir := false, size := 0, modTime := 5 } } "e").1.1.Pages = 0 ∧
    hasPercentDiv (GetPcStatus { goodEnv with statRes := .ok { isDir := false, size := 0, modTime := 5 } } "e").2 = false :=
  empty_target_zero_fields _ "e"
    { isDir := false, size := 0, modTime := 5 }
    { isDevice := false, isCharDevice := false }
    rfl rfl rfl rfl rfl (by simp) (fun _ => rfl)

/-- Counterexample to C6 as stated: in a fully successful block-device probe
the device-size query is not issued on the pipeline's own handle (handle 0),
and a second open of the target occurs — `getBlockDeviceSize` opens the path
itself rather than reusing the handle acquired at pipeline start. -/
theorem device_size_query_handle_counterexample :
    ¬ (hasIoctlOn 0 (GetPcStatus blkEnv "dev").2 = true ∧
       countOpens (GetPcStatus blkEnv "dev").2 = 1) := by decide

/-- C6 (amended): whenever the device-size query runs, it is issued against
a second, freshly opened handle to the same path (opened inside
`getBlockDeviceSize` and closed before it returns), never against the handle
acquired at pipeline start; size resolution thus opens exactly one
additional handle, and every opened handle is still closed. -/
theorem device_size_query_uses_fresh_handle (env : Env) (fname : String)
    (finfo : FileInfo) (pinfo : PathInfo)
    (ho : env.openErr = none) (hf : env.filterErr = none)
    (hs : env.statRes = .ok finfo) (hd : finfo.isDir = false)
    (hp : env.statPathRes = .ok pinfo)
    (hb : (pinfo.isDevice && !pinfo.isCharDevice) = true)
    (h2 : env.open2Err = none) :
    countOpens (GetPcStatus env fname).2 = 2 ∧
    hasIoctlOn 1 (GetPcStatus env fname).2 = true ∧
    hasIoctlOn 0 (GetPcStatus env fname).2 = false ∧
    allOpensClosed (GetPcStatus env fname).2 = true := by
  rcases hmr : env.mincoreRes with em | (_ | mc) <;>
  by_cases hn : env.ioctlErrno = 0 <;>
  by_cases hz : env.ioctlSize = 0 <;>
    simp [GetPcStatus, _isBlockDevice, getBlockDeviceSize, getBlockDeviceSizeEvents,
      GetFileMincore, ho, hf, hs, hd, hp, hb, h2, hn, hz, hmr,
      countOpens, hasIoctlOn, allOpensClosed, containsClose]

/-- Witness for the amended C6: the concrete block-device environment opens
exactly two handles and issues the ioctl on the second one only. -/
theorem device_size_query_uses_fresh_handle_witness :
    countOpens (GetPcStatus blkEnv "dev").2 = 2 ∧
    hasIoctlOn 1 (GetPcStatus blkEnv "dev").2 = true ∧
    hasIoctlOn 0 (GetPcStatus blkEnv "dev").2 = false ∧
    allOpensClosed (GetPcStatus blkEnv "dev").2 = true :=
  device_size_query_uses_fresh_handle blkEnv "dev"
    { isDir := false, size := 0, modTime := 5 }
    { isDevice := true, isCharDevice := false }
    rfl rfl rfl rfl rfl rfl rfl

/-- C8: on every path through `GetPcStatus` — success, filter rejection,
stat failure, directory error, size-resolution failure and probe failure
alike — every handle that was successfully opened is closed later in the
trace, before the call returns. -/
theorem handle_closed_on_every_path (env : Env) (fname : String) :
    allOpensClosed (GetPcStatus env fname).2 = true := by
  rcases ho : env.openErr with _ | e
  swap
  · simp [GetPcStatus, ho, allOpensClosed]
  rcases hf : env.filterErr with _ | e
  swap
  · simp [GetPcStatus, ho, hf, allOpensClosed, containsClose]
  rcases hs : env.statRes with es | fi
  · simp [GetPcStatus, ho, hf, hs, allOpensClosed, containsClose]
  cases hd : fi.isDir
  swap
  · simp [GetPcStatus, ho, hf, hs, hd, allOpensClosed, containsClose]
  rcases hp : env.statPathRes with ep | pi
  · simp [GetPcStatus, _isBlockDevice, ho, hf, hs, hd, hp, allOpensClosed, containsClose]
  cases hb : pi.isDevice && !pi.isCharDevice
  · by_cases hz : fi.size = 0
    · simp [GetPcStatus, _isBlockDevice, GetFileMincore, ho, hf, hs, hd, hp, hb, hz,
        allOpensClosed, containsClose]
    · rcases hmr : env.mincoreRes with em | (_ | mc) <;>
        simp [GetPcStatus, _isBlockDevice, GetFileMincore, ho, hf, hs, hd, hp, hb, hz, hmr,
          allOpensClosed, containsClose]
  · rcases h2 : env.open2Err with _ | e
    swap
    · simp [GetPcStatus, _isBlockDevice, getBlockDeviceSize, getBlockDeviceSizeEvents,
        ho, hf, hs, hd, hp, hb, h2, allOpensClosed, containsClose]
    by_cases hn : env.ioctlErrno = 0
    swap
    · simp [GetPcStatus, _isBlockDevice, getBlockDeviceSize, getBlockDeviceSizeEvents,
        ho, hf, hs, hd, hp, hb, h2, hn, allOpensClosed, containsClose]
    by_cases hz : env.ioctlSize = 0
    · simp [GetPcStatus, _isBlockDevice, getBlockDeviceSize, getBlockDeviceSizeEvents,
        GetFileMincore, ho, hf, hs, hd, hp, hb, h2, hn, hz, allOpensClosed, containsClose]
    · rcases hmr : env.mincoreRes with em | (_ | mc) <;>
        simp [GetPcStatus, _isBlockDevice, getBlockDeviceSize, getBlockDeviceSizeEvents,
          GetFileMincore, ho, hf, hs, hd, hp, hb, h2, hn, hz, hmr,
          allOpensClosed, containsClose]

/-- Every successful run either kept all page fields at zero (absent
report), or aggregated a residency report `mc` with the Go `int` arithmetic
of lines 119-123 of the source.  Shared shape lemma for the aggregation
invariants. -/
theorem GetPcStatus_ok_shape (env : Env) (fname : String)
    (hok : (GetPcStatus env fname).1.2 = none) :
    ((GetPcStatus env fname).1.1.Pages = 0 ∧ (GetPcStatus env fname).1.1.Cached = 0 ∧
     (GetPcStatus env fname).1.1.Uncached = 0 ∧ (GetPcStatus env fname).1.1.Percent = 0) ∨
    (∃ mc : Mincore, env.mincoreRes = .ok (some mc) ∧
      (GetPcStatus env fname).1.1.Cached = wrap64 mc.Cached ∧
      (GetPcStatus env fname).1.1.Pages = wrap64 (wrap64 mc.Cached + wrap64 mc.Miss) ∧
      (GetPcStatus env fname).1.1.Uncached = wrap64 mc.Miss ∧
      (GetPcStatus env fname).1.1.Percent =
        ((wrap64 mc.Cached : Int) : ℚ) /
          ((wrap64 (wrap64 mc.Cached + wrap64 mc.Miss) : Int) : ℚ) * 100) := by
  rcases ho : env.openErr with _ | e
  swap
  · simp [GetPcStatus, ho] at hok
  rcases hf : env.filterErr with _ | e
  swap
  · simp [GetPcStatus, ho, hf] at hok
  rcases hs : env.statRes with es | fi
  · simp [GetPcStatus, ho, hf, hs] at hok
  cases hd : fi.isDir
  swap
  · simp [GetPcStatus, ho, hf, hs, hd] at hok
  rcases hp : env.statPathRes with ep | pi
  · simp [GetPcStatus, _isBlockDevice, ho, hf, hs, hd, hp] at hok
  cases hb : pi.isDevice && !pi.isCharDevice
  · by_cases hz : fi.size = 0
    · left
      simp [GetPcStatus, _isBlockDevice, GetFileMincore, ho, hf, hs, hd, hp, hb, hz, zeroRec]
    · rcases hmr : env.mincoreRes with em | (_ | mc)
      · simp [GetPcStatus, _isBlockDevice, GetFileMincore, ho, hf, hs, hd, hp, hb, hz, hmr] at hok
      · left
        simp [GetPcStatus, _isBlockDevice, GetFileMincore, ho, hf, hs, hd, hp, hb, hz, hmr,
          zeroRec]
      · right
        refine ⟨mc, rfl, ?_⟩
        simp [GetPcStatus, _isBlockDevice, GetFileMincore, ho, hf, hs, hd, hp, hb, hz, hmr]
  · rcases h2 : env.open2Err with _ | e
    swap
    · simp [GetPcStatus, _isBlockDevice, getBlockDeviceSize, getBlockDeviceSizeEvents,
        ho, hf, hs, hd, hp, hb, h2] at hok
    by_cases hn : env.ioctlErrno = 0
    swap
    · simp [GetPcStatus, _isBlockDevice, getBlockDeviceSize, getBlockDeviceSizeEvents,
        ho, hf, hs, hd, hp, hb, h2, hn] at hok
    by_cases hz : env.ioctlSize = 0
    · left
      simp [GetPcStatus, _isBlockDevice, getBlockDeviceSize, getBlockDeviceSizeEvents,
        GetFileMincore, ho, hf, hs, hd, hp, hb, h2, hn, hz, zeroRec]
    · rcases hmr : env.mincoreRes with em | (_ | mc)
      · simp [GetPcStatus, _isBlockDevice, getBlockDeviceSize, getBlockDeviceSizeEvents,
          GetFileMincore, ho, hf, hs, hd, hp, hb, h2, hn, hz, hmr] at hok
      · left
        simp [GetPcStatus, _isBlockDevice, getBlockDeviceSize, getBlockDeviceSizeEvents,
          GetFileMincore, ho, hf, hs, hd, hp, hb, h2, hn, hz, hmr, zeroRec]
      · right
        refine ⟨mc, rfl, ?_⟩
        simp [GetPcStatus, _isBlockDevice, getBlockDeviceSize, getBlockDeviceSizeEvents,
          GetFileMincore, ho, hf, hs, hd, hp, hb, h2, hn, hz, hmr]

/-- C1: after a successful run in which the residency probe produced a
report, the record satisfies `Pages = Cached + Uncached`, with `Cached` and
`Uncached` taken from the report's cached and miss counts (genuine page
counts: nonnegative, with a sum below 2^63 as guaranteed by the provider
contract, so that the Go `int` arithmetic does not wrap). -/
theorem pages_eq_cached_add_uncached (env : Env) (fname : String) (mc : Mincore)
    (hrep : env.mincoreRes = .ok (some mc))
    (hc : 0 ≤ mc.Cached) (hm : 0 ≤ mc.Miss) (hsum : mc.Cached + mc.Miss < 2 ^ 63)
    (hok : (GetPcStatus env fname).1.2 = none) :
    (GetPcStatus env fname).1.1.Pages =
      (GetPcStatus env fname).1.1.Cached + (GetPcStatus env fname).1.1.Uncached := by
  rcases GetPcStatus_ok_shape env fname hok with ⟨hpg, hcz, huz, _⟩ | ⟨mc', hmr, hca, hpa, hun, _⟩
  · rw [hpg, hcz, huz]
    norm_num
  · rw [hrep] at hmr
    have hmc : mc = mc' := by simpa using hmr
    subst hmc
    have e1 : wrap64 mc.Cached = mc.Cached := wrap64_eq_self _ (by omega) (by omega)
    have e2 : wrap64 mc.Miss = mc.Miss := wrap64_eq_self _ (by omega) (by omega)
    rw [hpa, hca, hun, e1, e2]
    exact wrap64_eq_self _ (by omega) (by omega)

/-- Witness for C1: the concrete two-page probe (one cached, one missed)
satisfies `Pages = Cached + Uncached`. -/
theorem pages_eq_cached_add_uncached_witness :
    (GetPcStatus goodEnv "f").1.1.Pages =
      (GetPcStatus goodEnv "f").1.1.Cached + (GetPcStatus goodEnv "f").1.1.Uncached :=
  pages_eq_cached_add_uncached goodEnv "f" { Cached := 1, Miss := 1 }
    rfl (by norm_num) (by norm_num) (by norm_num) (by decide)

/-- C2: on a successful probe with `Pages > 0` and genuine (nonnegative,
non-wrapping) provider counts, the percentage equals
`100 * Cached / Pages` and lies between 0 and 100 inclusive. -/
theorem percent_formula_and_bounds (env : Env) (fname : String) (mc : Mincore)
    (hrep : env.mincoreRes = .ok (some mc))
    (hc : 0 ≤ mc.Cached) (hm : 0 ≤ mc.Miss) (hsum : mc.Cached + mc.Miss < 2 ^ 63)
    (hok : (GetPcStatus env fname).1.2 = none)
    (hpos : 0 < (GetPcStatus env fname).1.1.Pages) :
    (GetPcStatus env fname).1.1.Percent =
      100 * ((GetPcStatus env fname).1.1.Cached : ℚ) /
        ((GetPcStatus env fname).1.1.Pages : ℚ) ∧
    0 ≤ (GetPcStatus env fname).1.1.Percent ∧
    (GetPcStatus env fname).1.1.Percent ≤ 100 := by
  rcases GetPcStatus_ok_shape env fname hok with ⟨hpg, hcz, huz, hpc⟩ | ⟨mc', hmr, hca, hpa, hun, hpc⟩
  · rw [hpg] at hpos
    exact absurd hpos (by norm_num)
  · rw [hrep] at hmr
    have hmc : mc = mc' := by simpa using hmr
    subst hmc
    have e1 : wrap64 mc.Cached = mc.Cached := wrap64_eq_self _ (by omega) (by omega)
    have e2 : wrap64 mc.Miss = mc.Miss := wrap64_eq_self _ (by omega) (by omega)
    have e3 : wrap64 (mc.Cached + mc.Miss) = mc.Cached + mc.Miss :=
      wrap64_eq_self _ (by omega) (by omega)
    rw [hpa, e1, e2, e3] at hpos
    rw [hpc, hca, hpa, e1, e2, e3]
    have hposQ : (0 : ℚ) < ((mc.Cached + mc.Miss : Int) : ℚ) := by exact_mod_cast hpos
    have hcQ : (0 : ℚ) ≤ ((mc.Cached : Int) : ℚ) := by exact_mod_cast hc
    have hleQ : ((mc.Cached : Int) : ℚ) ≤ ((mc.Cached + mc.Miss : Int) : ℚ) := by
      have h := le_add_of_nonneg_right hm (a := mc.Cached)
      exact_mod_cast h
    refine ⟨by ring, ?_, ?_⟩
    · exact mul_nonneg (div_nonneg hcQ hposQ.le) (by norm_num)
    · have h1 : ((mc.Cached : Int) : ℚ) / ((mc.Cached + mc.Miss : Int) : ℚ) ≤ 1 :=
        (div_le_one hposQ).mpr hleQ
      have h2 := mul_le_mul_of_nonneg_right h1 (show (0 : ℚ) ≤ 100 by norm_num)
      linarith

/-- Witness for C2: the concrete two-page probe (one cached, one missed)
has `Percent = 50`, which matches the formula and the bounds. -/
theorem percent_formula_and_bounds_witness :
    (GetPcStatus goodEnv "f").1.1.Percent =
      100 * ((GetPcStatus goodEnv "f").1.1.Cached : ℚ) /
        ((GetPcStatus goodEnv "f").1.1.Pages : ℚ) ∧
    0 ≤ (GetPcStatus goodEnv "f").1.1.Percent ∧
    (GetPcStatus goodEnv "f").1.1.Percent ≤ 100 :=
  percent_formula_and_bounds goodEnv "f" { Cached := 1, Miss := 1 }
    rfl (by norm_num) (by norm_num) (by norm_num) (by decide) (by decide)
